import Mathlib

/-!
Verification development for the Ed-Fi student data loader
(`poc/before/load_students.py`).

The Python program is shallowly embedded as executable Lean functions.
HTTP traffic, which the program performs through the `requests` library,
is injected through an `Env` of response streams indexed by a call
counter; the observable behaviour of a run (requests issued, headers
sent, `authenticate` invocations) is recorded in a trace state `W`.
Python exceptions are modelled by the `PyErr` type and `Except`/`Option`
results; Python `dict`s by ordered association lists of `Json` values.
-/

namespace EdFi

/-- JSON values as manipulated by the Python program.  Objects keep their
insertion order, mirroring Python dicts.  `int` and `num` are kept apart
because the program stores `int(school_id)` and `float(full_time)`
values of distinct Python types; `num` carries an exact rational, the
value denoted by the decimal literal that Python parses. -/
inductive Json where
  | null
  | str (s : String)
  | num (q : ℚ)
  | int (n : Int)
  | obj (fields : List (String × Json))

/-- Python truthiness of a JSON value (`if value:`). -/
def jsonTruthy : Json → Bool
  | .null => false
  | .str s => !(s == "")
  | .num q => !(q == 0)
  | .int n => !(n == 0)
  | .obj l => !l.isEmpty

/-- Python truthiness of an optional JSON value (`None` is falsy). -/
def optTruthy : Option Json → Bool
  | none => false
  | some j => jsonTruthy j

/-- Python truthiness of an `Optional[str]` field. -/
def truthyStr : Option String → Bool
  | none => false
  | some s => !(s == "")

/-- Python exceptions raised by the program.  `discoveryError` and
`authError` are the wrapped `Exception("Failed to discover ...")` and
`Exception("Failed to authenticate ...")`; `httpError` is
`requests.HTTPError` from `raise_for_status`; `keyError`/`typeError`
are the uncaught built-in exceptions; `valueError` is raised by
`float()`/`int()` on non-numeric input (the spec's `PayloadError`). -/
inductive PyErr where
  | discoveryError
  | authError
  | keyError (k : String)
  | typeError
  | httpError (status : Nat)
  | transportError
  | jsonDecodeError
  | valueError
deriving DecidableEq, Repr

/-- Python dict subscription `j[k]`: `KeyError` when the key is missing
from an object, `TypeError` when the value is not a dict. -/
def getKey (j : Json) (k : String) : Except PyErr Json :=
  match j with
  | .obj fields =>
    match fields.lookup k with
    | some v => .ok v
    | none => .error (.keyError k)
  | _ => .error .typeError

/-- One student record parsed from the CSV file (`StudentRecord`
dataclass).  Optional CSV columns become `Option String` — the CSV
reader (`read_csv_file`, lines 180-183) converts empty cells to
`None`. -/
structure StudentRecord where
  unique_id : String
  birth_date : String
  first_name : String
  last_name : String
  middle_name : Option String
  title : Option String
  preferred_first_name : Option String
  preferred_last_name : Option String
  enrollment_date : String
  enrollment_grade_level : String
  full_time : String

/-- The mutable fields of `EdFiApiClient`.  `access_token`,
`oauth_url` and `data_management_api_url` start as Python `None` and
are filled with JSON values taken from server responses; the
constructor arguments are kept as plain strings. -/
structure ClientState where
  base_url : String
  client_id : String
  client_secret : String
  school_id : String
  access_token : Option Json
  oauth_url : Option Json
  data_management_api_url : Option Json

/-- Body of an HTTP response as seen by the program: empty content,
content that is not valid JSON, or a parsed JSON document. -/
inductive Body where
  | empty
  | invalid
  | json (j : Json)

/-- Outcome of one call into the `requests` library: a transport-level
`RequestException`, or a response with a status code and body. -/
inductive HttpResp where
  | transportError
  | response (status : Nat) (body : Body)

/-- `response.raise_for_status()` raises `requests.HTTPError` exactly
for 4xx and 5xx status codes. -/
def raiseForStatus (status : Nat) : Bool :=
  decide (400 ≤ status ∧ status < 600)

/-- The injected network: response streams for the discovery `GET`
(`requests.get` in `discover_endpoints`), the token `POST`
(`requests.post` in `authenticate`) and the data-API calls
(`requests.request` in `make_request`), each indexed by how many calls
of that kind have been issued so far. -/
structure Env where
  disc : Nat → HttpResp
  oauth : Nat → HttpResp
  http : Nat → HttpResp

/-- One observed data-API request: the endpoint and method passed to
`requests.request`, the token carried in the `Authorization: Bearer`
header, whether the `Content-Type: application/json` header was sent,
and the JSON body actually transmitted (`json=data if data else None`). -/
structure HttpCall where
  endpoint : String
  meth : String
  token : Json
  contentTypeJson : Bool
  body : Option Json

/-- Observation trace threaded through a run: counters for the three
response streams, the number of `authenticate()` invocations, and the
chronological list of data-API requests issued. -/
structure W where
  dCnt : Nat
  oCnt : Nat
  hCnt : Nat
  aCnt : Nat
  calls : List HttpCall

/-- The empty trace. -/
def W0 : W := ⟨0, 0, 0, 0, []⟩

/-- `json=data if data else None` in `make_request`: a falsy `data`
argument (Python `None` or an empty dict) means no body is sent. -/
def pyBody (data : Option Json) : Option Json :=
  match data with
  | none => none
  | some j => if jsonTruthy j then some j else none

/-- Numeric value of a list of decimal digit characters. -/
def digitsVal (l : List Char) : Nat :=
  l.foldl (fun a c => a * 10 + (c.toNat - 48)) 0

/-- CPython `float()` on the plain decimal strings the loader deals
with: optional sign, decimal digits, optional fractional part, e.g.
`"1"`, `"0.5"`, `"-2."`, `".75"`.  The result is the exact rational
value of the literal.  Exponent, `inf`/`nan`, underscore and
surrounding-whitespace forms accepted by CPython are not modelled;
every string the claims quantify over is covered.  `none` models the
`ValueError` raised on non-numeric input. -/
def pyFloat? (s : String) : Option ℚ :=
  let cs := s.toList
  let sn : Bool × List Char :=
    match cs with
    | '-' :: t => (true, t)
    | '+' :: t => (false, t)
    | _ => (false, cs)
  let ip := sn.2.takeWhile (fun c => !(c == '.'))
  let rest := sn.2.dropWhile (fun c => !(c == '.'))
  let val? : Option ℚ :=
    match rest with
    | [] =>
      if ip ≠ [] ∧ ip.all Char.isDigit then some ((digitsVal ip : ℚ)) else none
    | _ :: fp =>
      if (ip ≠ [] ∨ fp ≠ []) ∧ ip.all Char.isDigit ∧ fp.all Char.isDigit then
        some ((digitsVal ip : ℚ) + (digitsVal fp : ℚ) / ((10 : ℚ) ^ fp.length))
      else none
  match val? with
  | none => none
  | some v => some (if sn.1 then -v else v)

/-- CPython `int()` on plain decimal strings: optional sign and a
nonempty run of digits (whitespace/underscore forms not modelled).
`none` models the `ValueError` raised on non-numeric input. -/
def pyInt? (s : String) : Option Int :=
  let sn : Bool × List Char :=
    match s.toList with
    | '-' :: t => (true, t)
    | '+' :: t => (false, t)
    | _ => (false, s.toList)
  if sn.2 ≠ [] ∧ sn.2.all Char.isDigit then
    some (if sn.1 then -(digitsVal sn.2 : Int) else (digitsVal sn.2 : Int))
  else none

/-- The guard `if self.oauth_url and self.data_management_api_url:` at
the top of `discover_endpoints`: discovery is skipped only when both
cached values are truthy. -/
def discNeeded (st : ClientState) : Bool :=
  !(optTruthy st.oauth_url && optTruthy st.data_management_api_url)

/-- `EdFiApiClient.discover_endpoints` (lines 60-78), given the outcome
of the discovery `GET`.  The `except` clause catches only
`requests.RequestException` (transport errors, `raise_for_status`'s
`HTTPError`, and `response.json()`'s `JSONDecodeError`, a
`RequestException` subclass) and wraps them; the `KeyError`/`TypeError`
raised by the `api_info['urls'][...]` subscriptions escapes unwrapped,
after `self.oauth_url` may already have been assigned. -/
def discover_endpoints (st : ClientState) (r : HttpResp) : ClientState × Option PyErr :=
  if discNeeded st = false then (st, none)
  else
    match r with
    | .transportError => (st, some .discoveryError)
    | .response status body =>
      if raiseForStatus status then (st, some .discoveryError)
      else
        match body with
        | .empty => (st, some .discoveryError)
        | .invalid => (st, some .discoveryError)
        | .json j =>
          match getKey j "urls" with
          | .error e => (st, some e)
          | .ok urls =>
            match getKey urls "oauth" with
            | .error e => (st, some e)
            | .ok o =>
              let st1 := {st with oauth_url := some o}
              match getKey urls "dataManagementApi" with
              | .error e => (st1, some e)
              | .ok d => ({st1 with data_management_api_url := some d}, none)

/-- `discover_endpoints` threaded through the environment: the
discovery `GET` is issued (and its counter advanced) only when the
cached-endpoint guard fails. -/
def discover_endpointsT (env : Env) (st : ClientState) (w : W) :
    ClientState × W × Option PyErr :=
  if discNeeded st then
    let p := discover_endpoints st (env.disc w.dCnt)
    (p.1, {w with dCnt := w.dCnt + 1}, p.2)
  else (st, w, none)

/-- `EdFiApiClient.authenticate` (lines 80-109).  `discover_endpoints`
is called outside the `try`, so its errors propagate as-is.  The
`except` again catches only `RequestException` (wrapping transport
errors, non-2xx statuses and undecodable token bodies as
`authError`); the `KeyError` from `token_info['access_token']`
escapes.  On success the token JSON value is stored wholesale.
(`expires_in` is read into a local that is never used; omitted.) -/
def authenticate (env : Env) (st : ClientState) (w : W) :
    ClientState × W × Option PyErr :=
  let w0 : W := {w with aCnt := w.aCnt + 1}
  match discover_endpointsT env st w0 with
  | (st1, w1, some e) => (st1, w1, some e)
  | (st1, w1, none) =>
    let r := env.oauth w1.oCnt
    let w2 : W := {w1 with oCnt := w1.oCnt + 1}
    match r with
    | .transportError => (st1, w2, some .authError)
    | .response status body =>
      if raiseForStatus status then (st1, w2, some .authError)
      else
        match body with
        | .empty => (st1, w2, some .authError)
        | .invalid => (st1, w2, some .authError)
        | .json j =>
          match getKey j "access_token" with
          | .error e => (st1, w2, some e)
          | .ok tok => ({st1 with access_token := some tok}, w2, none)

/-- Result of `make_request`: final client state, trace, and the
returned JSON (or the exception that propagated). -/
structure MRes where
  state : ClientState
  w : W
  ret : Except PyErr Json

/-- Shared tail of `make_request`: `raise_for_status`, then
`return response.json() if response.content else {}`.  A 2xx body
that is not valid JSON raises `JSONDecodeError`, which the `except`
clause logs and re-raises unchanged. -/
def finishResp : HttpResp → Except PyErr Json
  | .transportError => .error .transportError
  | .response status body =>
    if raiseForStatus status then .error (.httpError status)
    else
      match body with
      | .empty => .ok (Json.obj [])
      | .json j => .ok j
      | .invalid => .error .jsonDecodeError

/-- `EdFiApiClient.make_request` (lines 111-158).  Authenticates first
when the stored token is falsy; always sends both the
`Authorization: Bearer <token>` and `Content-Type: application/json`
headers (the `headers` dict at lines 119-122 is built unconditionally);
on a 401 status re-authenticates once, refreshes the `Authorization`
header and retries the same request exactly once; any failure of the
retry (or any non-401 failure of the first attempt) propagates. -/
def make_request (env : Env) (st : ClientState) (w : W)
    (endpoint meth : String) (data : Option Json) : MRes :=
  match (if optTruthy st.access_token then (st, w, none) else authenticate env st w) with
  | (st1, w1, some e) => ⟨st1, w1, .error e⟩
  | (st1, w1, none) =>
    let tok := st1.access_token.getD Json.null
    let body := pyBody data
    let call1 : HttpCall := ⟨endpoint, meth, tok, true, body⟩
    let r1 := env.http w1.hCnt
    let w2 : W := {w1 with hCnt := w1.hCnt + 1, calls := w1.calls ++ [call1]}
    match r1 with
    | .transportError => ⟨st1, w2, .error .transportError⟩
    | .response status1 body1 =>
      if status1 = 401 then
        match authenticate env st1 w2 with
        | (st2, w3, some e) => ⟨st2, w3, .error e⟩
        | (st2, w3, none) =>
          let tok2 := st2.access_token.getD Json.null
          let call2 : HttpCall := ⟨endpoint, meth, tok2, true, body⟩
          let r2 := env.http w3.hCnt
          let w4 : W := {w3 with hCnt := w3.hCnt + 1, calls := w3.calls ++ [call2]}
          ⟨st2, w4, finishResp r2⟩
      else ⟨st1, w2, finishResp (.response status1 body1)⟩

/-- `StudentDataLoader.create_student_payload` (lines 198-217): the four
required keys in insertion order, then each optional field appended
under its API key when the field is truthy (Python
`if student.middle_name:` etc. — `None` and the empty string are both
falsy). -/
def create_student_payload (s : StudentRecord) : List (String × Json) :=
  let payload : List (String × Json) :=
    [("studentUniqueId", Json.str s.unique_id),
     ("birthDate", Json.str s.birth_date),
     ("firstName", Json.str s.first_name),
     ("lastSurName", Json.str s.last_name)]
  let payload :=
    if truthyStr s.middle_name then
      payload ++ [("middleName", Json.str (s.middle_name.getD ""))]
    else payload
  let payload :=
    if truthyStr s.title then
      payload ++ [("personalTitlePrefix", Json.str (s.title.getD ""))]
    else payload
  let payload :=
    if truthyStr s.preferred_first_name then
      payload ++ [("preferredFirstName", Json.str (s.preferred_first_name.getD ""))]
    else payload
  let payload :=
    if truthyStr s.preferred_last_name then
      payload ++ [("preferredLastSurname", Json.str (s.preferred_last_name.getD ""))]
    else payload
  payload

/-- The fields of the association payload once both numeric parses have
succeeded (`fte = float(student.full_time)`,
`sid = int(self.api_client.school_id)`); dict literal of lines 227-237. -/
def assocFields (s : StudentRecord) (fte : ℚ) (sid : Int) : List (String × Json) :=
  [("studentReference", Json.obj [("studentUniqueId", Json.str s.unique_id)]),
   ("schoolReference", Json.obj [("schoolId", Json.int sid)]),
   ("entryDate", Json.str s.enrollment_date),
   ("entryGradeLevelDescriptor",
     Json.str ("uri://ed-fi.org/GradeLevelDescriptor#" ++ s.enrollment_grade_level)),
   ("fullTimeEquivalency", Json.num fte)]

/-- `StudentDataLoader.create_student_school_association_payload`
(lines 219-239): formats the grade-level descriptor from the raw text,
converts the full-time flag with `float()` (its `ValueError`
propagates first, line 225), then the school id with `int()` inside
the dict literal (line 232). -/
def create_student_school_association_payload (school_id : String)
    (s : StudentRecord) : Except PyErr Json :=
  match pyFloat? s.full_time with
  | none => .error .valueError
  | some fte =>
    match pyInt? school_id with
    | none => .error .valueError
    | some sid => .ok (Json.obj (assocFields s fte sid))

/-- Result of `load_student`: final client state, trace, and success or
the propagated exception. -/
structure LRes where
  state : ClientState
  w : W
  ret : Except PyErr Unit

/-- `StudentDataLoader.load_student` (lines 241-270): builds the primary
payload, POSTs it to `/ed-fi/students`, and only after that call
returns does it build and POST the association payload to
`/ed-fi/studentSchoolAssociations`.  Every exception is logged and
re-raised unchanged by the `except` clause. -/
def load_student (env : Env) (st : ClientState) (w : W) (s : StudentRecord) : LRes :=
  let p1 := Json.obj (create_student_payload s)
  let m1 := make_request env st w "/ed-fi/students" "POST" (some p1)
  match m1.ret with
  | .error e => ⟨m1.state, m1.w, .error e⟩
  | .ok _ =>
    match create_student_school_association_payload m1.state.school_id s with
    | .error e => ⟨m1.state, m1.w, .error e⟩
    | .ok p2 =>
      let m2 := make_request env m1.state m1.w "/ed-fi/studentSchoolAssociations" "POST" (some p2)
      match m2.ret with
      | .error e => ⟨m2.state, m2.w, .error e⟩
      | .ok _ => ⟨m2.state, m2.w, .ok ()⟩

/-- The per-record success and error tallies of a run. -/
structure LoadSummary where
  success_count : Nat
  error_count : Nat
deriving DecidableEq, Repr

/-- Result of `load_all_students`.  `logged` is the pair of counters
reported by the final `"Load complete: ..."` log line; `ret` is the
Python return value — the function is annotated `-> None` and has no
`return` statement, so it is always `none`. -/
structure LoadAllRes where
  state : ClientState
  w : W
  logged : LoadSummary
  ret : Option LoadSummary

/-- The `for student in students:` loop of `load_all_students`
(lines 279-285): each record is attempted with `load_student`; a
success increments `success_count`, any exception is caught and
increments `error_count`, and the loop always continues with the next
record. -/
def load_all_loop (env : Env) :
    ClientState → W → Nat → Nat → List StudentRecord → ClientState × W × Nat × Nat
  | st, w, sc, ec, [] => (st, w, sc, ec)
  | st, w, sc, ec, s :: rest =>
    let l := load_student env st w s
    match l.ret with
    | .ok _ => load_all_loop env l.state l.w (sc + 1) ec rest
    | .error _ => load_all_loop env l.state l.w sc (ec + 1) rest

/-- `StudentDataLoader.load_all_students` (lines 272-290) over the
already-parsed record list (file reading is an external collaborator).
The tallies are logged; the function returns `None`. -/
def load_all_students (env : Env) (st : ClientState) (w : W)
    (students : List StudentRecord) : LoadAllRes :=
  let r := load_all_loop env st w 0 0 students
  ⟨r.1, r.2.1, ⟨r.2.2.1, r.2.2.2⟩, none⟩

/-- The sequence of per-record `load_student` outcomes produced as the
loop threads the client state and trace through the record list. -/
def load_results (env : Env) :
    ClientState → W → List StudentRecord → List (Except PyErr Unit)
  | _, _, [] => []
  | st, w, s :: rest =>
    let l := load_student env st w s
    l.ret :: load_results env l.state l.w rest

/-- Number of requests to the association endpoint in a call trace. -/
def countAssoc (l : List HttpCall) : Nat :=
  l.countP (fun c => c.endpoint == "/ed-fi/studentSchoolAssociations")

/-- The data-API request issued for the primary (student) payload. -/
def primaryCall (tok : Json) (s : StudentRecord) : HttpCall :=
  ⟨"/ed-fi/students", "POST", tok, true,
   pyBody (some (Json.obj (create_student_payload s)))⟩

/-- The data-API request issued for the association payload. -/
def assocCall (tok : Json) (s : StudentRecord) (fte : ℚ) (sid : Int) : HttpCall :=
  ⟨"/ed-fi/studentSchoolAssociations", "POST", tok, true,
   pyBody (some (Json.obj (assocFields s fte sid)))⟩

/-- `Except.ok` test, the branch taken by the tally loop. -/
def isOkB : Except PyErr Unit → Bool
  | .ok _ => true
  | .error _ => false

/-- A client that has completed discovery and authentication. -/
def stTok : ClientState :=
  ⟨"https://api.example.edu", "cid", "csecret", "255901",
   some (.str "tok"), some (.str "https://api.example.edu/oauth/token"),
   some (.str "https://api.example.edu/data/v3")⟩

/-- A freshly constructed client: no token, no discovered endpoints. -/
def stFresh : ClientState :=
  ⟨"https://api.example.edu", "cid", "csecret", "255901", none, none, none⟩

/-- A record with every optional field present (test_loader.py's sample,
with preferred names filled in). -/
def recFull : StudentRecord :=
  ⟨"604835", "2016-09-29", "Diana", "Holt", some "Emily", some "Ms",
   some "Di", some "Hol", "2021-08-23", "Ninth grade", "1"⟩

/-- A record with every optional field absent and a fractional
full-time flag. -/
def recPlain : StudentRecord :=
  ⟨"604836", "2015-01-02", "Alex", "Reed", none, none, none, none,
   "2021-08-23", "Eighth grade", "0.5"⟩

/-- A record whose full-time flag is not numeric. -/
def recBadFlag : StudentRecord :=
  ⟨"604837", "2015-01-02", "Sam", "Cole", none, none, none, none,
   "2021-08-23", "Eighth grade", "N/A"⟩

/-- Network where the first data-API request gets 401 and every later
one 200 with a JSON body; re-authentication yields token `tok2`. -/
def env401ok : Env :=
  ⟨fun _ => .transportError,
   fun _ => .response 200 (.json (.obj [("access_token", .str "tok2")])),
   fun n => if n = 0 then .response 401 .empty else .response 200 (.json (.str "body"))⟩

/-- Network where every data-API request gets an empty 200. -/
def envPlain : Env :=
  ⟨fun _ => .transportError, fun _ => .transportError,
   fun _ => .response 200 .empty⟩

/-- Network where the first data-API request gets 500 and every later
one an empty 200. -/
def envFail0 : Env :=
  ⟨fun _ => .transportError, fun _ => .transportError,
   fun n => if n = 0 then .response 500 .empty else .response 200 .empty⟩

/-- Network where every data-API request fails at transport level. -/
def envDown : Env :=
  ⟨fun _ => .transportError, fun _ => .transportError,
   fun _ => .transportError⟩

/-- A discovery document with `urls.oauth` but no
`urls.dataManagementApi`. -/
def discDocNoDm : Json :=
  .obj [("urls", .obj [("oauth", .str "https://api.example.edu/oauth/token")])]

/-- C4: a record with all four optional fields absent yields exactly the
four required keys; a present (truthy) optional field appears under its
API key with its exact value; an absent optional field contributes no
key at all (in particular never a null or empty-string key).  "Present"
follows the spec's Record data model (§3): optional fields are
absent-or-present, never the empty string — the CSV reader converts
empty cells to `None`. -/
theorem C4_student_payload_optional_fields (s : StudentRecord) :
    (s.middle_name = none → s.title = none → s.preferred_first_name = none →
      s.preferred_last_name = none →
      (create_student_payload s).map Prod.fst =
        ["studentUniqueId", "birthDate", "firstName", "lastSurName"])
    ∧ (∀ v, s.middle_name = some v → v ≠ "" →
        ("middleName", Json.str v) ∈ create_student_payload s)
    ∧ (∀ v, s.title = some v → v ≠ "" →
        ("personalTitlePrefix", Json.str v) ∈ create_student_payload s)
    ∧ (∀ v, s.preferred_first_name = some v → v ≠ "" →
        ("preferredFirstName", Json.str v) ∈ create_student_payload s)
    ∧ (∀ v, s.preferred_last_name = some v → v ≠ "" →
        ("preferredLastSurname", Json.str v) ∈ create_student_payload s)
    ∧ (s.middle_name = none →
        "middleName" ∉ (create_student_payload s).map Prod.fst)
    ∧ (s.title = none →
        "personalTitlePrefix" ∉ (create_student_payload s).map Prod.fst)
    ∧ (s.preferred_first_name = none →
        "preferredFirstName" ∉ (create_student_payload s).map Prod.fst)
    ∧ (s.preferred_last_name = none →
        "preferredLastSurname" ∉ (create_student_payload s).map Prod.fst) := by
  refine ⟨?_, ?_, ?_, ?_, ?_, ?_, ?_, ?_, ?_⟩
  · intro h1 h2 h3 h4
    simp [create_student_payload, truthyStr, h1, h2, h3, h4]
  · intro v hv hne
    have ht : truthyStr s.middle_name = true := by simp [truthyStr, hv, hne]
    simp only [create_student_payload, ht, if_true]
    split_ifs <;> simp [hv]
  · intro v hv hne
    have ht : truthyStr s.title = true := by simp [truthyStr, hv, hne]
    simp only [create_student_payload, ht, if_true]
    split_ifs <;> simp [hv]
  · intro v hv hne
    have ht : truthyStr s.preferred_first_name = true := by simp [truthyStr, hv, hne]
    simp only [create_student_payload, ht, if_true]
    split_ifs <;> simp [hv]
  · intro v hv hne
    have ht : truthyStr s.preferred_last_name = true := by simp [truthyStr, hv, hne]
    simp only [create_student_payload, ht, if_true]
    split_ifs <;> simp [hv]
  · intro h
    simp only [create_student_payload, truthyStr, h]
    split_ifs <;> simp_all
  · intro h
    simp only [create_student_payload, truthyStr, h]
    split_ifs <;> simp_all
  · intro h
    simp only [create_student_payload, truthyStr, h]
    split_ifs <;> simp_all
  · intro h
    simp only [create_student_payload, truthyStr, h]
    split_ifs <;> simp_all

/-- Witness for C4 at concrete records: all four optional values of
`recFull` appear verbatim; `recPlain` (no optional fields) yields
exactly the four required keys and no `middleName` key. -/
theorem C4_student_payload_witness :
    ("middleName", Json.str "Emily") ∈ create_student_payload recFull
    ∧ ("personalTitlePrefix", Json.str "Ms") ∈ create_student_payload recFull
    ∧ ("preferredFirstName", Json.str "Di") ∈ create_student_payload recFull
    ∧ ("preferredLastSurname", Json.str "Hol") ∈ create_student_payload recFull
    ∧ (create_student_payload recPlain).map Prod.fst =
        ["studentUniqueId", "birthDate", "firstName", "lastSurName"]
    ∧ "middleName" ∉ (create_student_payload recPlain).map Prod.fst := by
  refine ⟨?_, ?_, ?_, ?_, ?_, ?_⟩
  · exact (C4_student_payload_optional_fields recFull).2.1 "Emily" rfl (by decide)
  · exact (C4_student_payload_optional_fields recFull).2.2.1 "Ms" rfl (by decide)
  · exact (C4_student_payload_optional_fields recFull).2.2.2.1 "Di" rfl (by decide)
  · exact (C4_student_payload_optional_fields recFull).2.2.2.2.1 "Hol" rfl (by decide)
  · exact (C4_student_payload_optional_fields recPlain).1 rfl rfl rfl rfl
  · exact (C4_student_payload_optional_fields recPlain).2.2.2.2.2.1 rfl

/-- C10: an optional field that is present but equal to the empty string
is omitted from the payload exactly as if it were absent — presence is
decided by Python truthiness, so `some ""` and `none` produce identical
payloads. -/
theorem C10_empty_string_optional_indistinguishable (s : StudentRecord) :
    create_student_payload {s with middle_name := some ""} =
      create_student_payload {s with middle_name := none}
    ∧ create_student_payload {s with title := some ""} =
      create_student_payload {s with title := none}
    ∧ create_student_payload {s with preferred_first_name := some ""} =
      create_student_payload {s with preferred_first_name := none}
    ∧ create_student_payload {s with preferred_last_name := some ""} =
      create_student_payload {s with preferred_last_name := none} := by
  refine ⟨?_, ?_, ?_, ?_⟩ <;> simp [create_student_payload, truthyStr]

/-- The decimal literal `"0.5"` parses to exactly one half. -/
theorem pyFloat_half : pyFloat? "0.5" = some (1 / 2) := by
  have h : pyFloat? "0.5" = some ((0 : ℚ) + (5 : ℚ) / 10 ^ 1) := rfl
  rw [h]
  norm_num

/-- C5: when the full-time flag parses and the school id parses, the
built payload is exactly the dict of `assocFields` and its
`fullTimeEquivalency` entry is precisely the parsed rational; a
non-numeric flag or a non-integer school id makes the builder fail
with `ValueError` (the spec's `PayloadError`). -/
theorem C5_fulltime_equivalency_exact (sid : String) (s : StudentRecord) :
    (∀ q n, pyFloat? s.full_time = some q → pyInt? sid = some n →
      create_student_school_association_payload sid s = .ok (Json.obj (assocFields s q n))
      ∧ (assocFields s q n).lookup "fullTimeEquivalency" = some (Json.num q))
    ∧ (pyFloat? s.full_time = none →
      create_student_school_association_payload sid s = .error .valueError)
    ∧ (pyInt? sid = none →
      create_student_school_association_payload sid s = .error .valueError) := by
  refine ⟨?_, ?_, ?_⟩
  · intro q n hq hn
    constructor
    · simp [create_student_school_association_payload, hq, hn]
    · simp [assocFields, List.lookup]
  · intro h
    simp [create_student_school_association_payload, h]
  · intro h
    cases hq : pyFloat? s.full_time <;>
      simp [create_student_school_association_payload, hq, h]

/-- Witness for C5: `"1"` parses to exactly `1`, `"0.5"` to exactly
`1/2` and lands verbatim in `fullTimeEquivalency`; the non-numeric flag
`"N/A"` and the non-integer school id `"sch-1"` each fail with
`ValueError`. -/
theorem C5_fulltime_equivalency_witness :
    create_student_school_association_payload "255901" recPlain =
      .ok (Json.obj (assocFields recPlain (1 / 2) 255901))
    ∧ (assocFields recPlain (1 / 2) 255901).lookup "fullTimeEquivalency" =
        some (Json.num (1 / 2))
    ∧ create_student_school_association_payload "255901" recFull =
      .ok (Json.obj (assocFields recFull 1 255901))
    ∧ create_student_school_association_payload "255901" recBadFlag = .error .valueError
    ∧ create_student_school_association_payload "sch-1" recPlain = .error .valueError := by
  have h05 := (C5_fulltime_equivalency_exact "255901" recPlain).1 (1 / 2) 255901
    pyFloat_half rfl
  have h1 := (C5_fulltime_equivalency_exact "255901" recFull).1 1 255901
    rfl rfl
  exact ⟨h05.1, h05.2, h1.1,
    (C5_fulltime_equivalency_exact "255901" recBadFlag).2.1 rfl,
    (C5_fulltime_equivalency_exact "sch-1" recPlain).2.2 rfl⟩

/-- Dropping through the first `'#'` of `pre ++ '#' :: g` recovers `g`
when `pre` has no `'#'`. -/
theorem drop_through_hash (pre : List Char)
    (hpre : pre.all (fun c => !(c == '#')) = true) (g : List Char) :
    ((pre ++ '#' :: g).dropWhile (fun c => !(c == '#'))).drop 1 = g := by
  induction pre with
  | nil => simp [List.dropWhile]
  | cons c t ih =>
    simp only [List.all_cons, Bool.and_eq_true] at hpre
    simp [List.dropWhile_cons, hpre.1, ih hpre.2]

/-- C6: the association payload's `entryGradeLevelDescriptor` is the
string `uri://ed-fi.org/GradeLevelDescriptor#` followed by the record's
grade-level text appended verbatim; dropping everything through the
first `'#'` of the descriptor recovers the grade-level text character
for character, with no normalization or validation. -/
theorem C6_grade_descriptor_verbatim (sid : String) (s : StudentRecord) :
    (∀ q n, pyFloat? s.full_time = some q → pyInt? sid = some n →
      create_student_school_association_payload sid s = .ok (Json.obj (assocFields s q n)))
    ∧ (∀ q n, (assocFields s q n).lookup "entryGradeLevelDescriptor" =
        some (Json.str
          ("uri://ed-fi.org/GradeLevelDescriptor#" ++ s.enrollment_grade_level)))
    ∧ ((("uri://ed-fi.org/GradeLevelDescriptor#" ++
          s.enrollment_grade_level).toList.dropWhile (fun c => !(c == '#'))).drop 1 =
        s.enrollment_grade_level.toList) := by
  refine ⟨?_, ?_, ?_⟩
  · intro q n hq hn
    simp [create_student_school_association_payload, hq, hn]
  · intro q n
    simp [assocFields, List.lookup]
  · have hsplit : ("uri://ed-fi.org/GradeLevelDescriptor#" ++
        s.enrollment_grade_level).toList =
        "uri://ed-fi.org/GradeLevelDescriptor".toList ++
          '#' :: s.enrollment_grade_level.toList := by
      rw [String.congr_append]
      rfl
    rw [hsplit]
    exact drop_through_hash "uri://ed-fi.org/GradeLevelDescriptor".toList
      (by decide) s.enrollment_grade_level.toList

/-- Witness for C6 at a concrete record: the descriptor for grade-level
text `Eighth grade` is the URI string with the text verbatim after the
hash. -/
theorem C6_grade_descriptor_witness :
    create_student_school_association_payload "255901" recPlain =
      .ok (Json.obj (assocFields recPlain (1 / 2) 255901))
    ∧ (assocFields recPlain (1 / 2) 255901).lookup "entryGradeLevelDescriptor" =
        some (Json.str "uri://ed-fi.org/GradeLevelDescriptor#Eighth grade") := by
  have h := C6_grade_descriptor_verbatim "255901" recPlain
  exact ⟨h.1 (1 / 2) 255901 pyFloat_half rfl, h.2.1 (1 / 2) 255901⟩

/-- Counterexample to C7 as stated: a 200 JSON discovery document with
`urls.oauth` present but `urls.dataManagementApi` missing makes
`discover_endpoints` fail with an uncaught `KeyError`, not with the
wrapped discovery error — the `except` clause catches only
`requests.RequestException`, and `KeyError` is not one. -/
theorem C7_counterexample :
    (discover_endpoints stFresh (.response 200 (.json discDocNoDm))).2 =
      some (.keyError "dataManagementApi")
    ∧ PyErr.keyError "dataManagementApi" ≠ PyErr.discoveryError := by
  exact ⟨rfl, by decide⟩

/-- C7 amended: with discovery still needed, a transport error, a
4xx/5xx status, or an empty/non-JSON body each fail with the wrapped
`DiscoveryError`; a JSON document missing `urls`, `urls.oauth` or
`urls.dataManagementApi` still makes the operation fail, but with an
uncaught `KeyError` instead.  (Statuses outside 400-599 do not trip
`raise_for_status`.) -/
theorem C7_discovery_failure_modes (st : ClientState)
    (hneed : discNeeded st = true) :
    discover_endpoints st .transportError = (st, some .discoveryError)
    ∧ (∀ status body, raiseForStatus status = true →
        discover_endpoints st (.response status body) = (st, some .discoveryError))
    ∧ (∀ status, raiseForStatus status = false →
        discover_endpoints st (.response status .invalid) = (st, some .discoveryError)
        ∧ discover_endpoints st (.response status .empty) = (st, some .discoveryError))
    ∧ (∀ status fs, raiseForStatus status = false → fs.lookup "urls" = none →
        discover_endpoints st (.response status (.json (.obj fs))) =
          (st, some (.keyError "urls")))
    ∧ (∀ status fs ufs, raiseForStatus status = false →
        fs.lookup "urls" = some (.obj ufs) → ufs.lookup "oauth" = none →
        discover_endpoints st (.response status (.json (.obj fs))) =
          (st, some (.keyError "oauth")))
    ∧ (∀ status fs ufs o, raiseForStatus status = false →
        fs.lookup "urls" = some (.obj ufs) → ufs.lookup "oauth" = some o →
        ufs.lookup "dataManagementApi" = none →
        discover_endpoints st (.response status (.json (.obj fs))) =
          ({st with oauth_url := some o}, some (.keyError "dataManagementApi"))) := by
  refine ⟨?_, ?_, ?_, ?_, ?_, ?_⟩
  · simp [discover_endpoints, hneed]
  · intro status body h
    simp [discover_endpoints, hneed, h]
  · intro status h
    constructor <;> simp [discover_endpoints, hneed, h]
  · intro status fs h hu
    simp [discover_endpoints, hneed, h, getKey, hu]
  · intro status fs ufs h hu ho
    simp [discover_endpoints, hneed, h, getKey, hu, ho]
  · intro status fs ufs o h hu ho hd
    simp [discover_endpoints, hneed, h, getKey, hu, ho, hd]

/-- Witness for the amended C7 at concrete inputs: transport error, a
404, a non-JSON 200 body, and a 200 JSON body with no `urls` key. -/
theorem C7_discovery_failure_witness :
    discover_endpoints stFresh .transportError = (stFresh, some .discoveryError)
    ∧ discover_endpoints stFresh (.response 404 .empty) = (stFresh, some .discoveryError)
    ∧ discover_endpoints stFresh (.response 200 .invalid) = (stFresh, some .discoveryError)
    ∧ discover_endpoints stFresh (.response 200 (.json (.obj []))) =
        (stFresh, some (.keyError "urls")) := by
  have h := C7_discovery_failure_modes stFresh rfl
  exact ⟨h.1, h.2.1 404 .empty rfl, (h.2.2.1 200 rfl).1, h.2.2.2.1 200 [] rfl rfl⟩

/-- C9: when the discovery document has `urls.oauth` but lacks
`urls.dataManagementApi`, `discover_endpoints` raises (the `KeyError`),
yet the client's `oauth_url` has already been assigned the discovered
value while `data_management_api_url` is still unset — the endpoint
state is partially mutated on this error path. -/
theorem C9_partial_mutation_on_missing_dm (st : ClientState)
    (fs ufs : List (String × Json)) (o : Json)
    (hdm : st.data_management_api_url = none)
    (hurls : fs.lookup "urls" = some (.obj ufs))
    (hoauth : ufs.lookup "oauth" = some o)
    (hmiss : ufs.lookup "dataManagementApi" = none) :
    discover_endpoints st (.response 200 (.json (.obj fs))) =
      ({st with oauth_url := some o}, some (.keyError "dataManagementApi"))
    ∧ ({st with oauth_url := some o}).data_management_api_url = none := by
  have hneed : discNeeded st = true := by
    simp [discNeeded, optTruthy, hdm]
  constructor
  · simp [discover_endpoints, hneed, getKey, hurls, hoauth, hmiss, raiseForStatus]
  · simpa using hdm

/-- Witness for C9 at a concrete fresh client and document: after the
failing call, `oauth_url` holds the discovered value and
`data_management_api_url` is still `none`. -/
theorem C9_partial_mutation_witness :
    discover_endpoints stFresh (.response 200 (.json discDocNoDm)) =
      ({stFresh with oauth_url := some (.str "https://api.example.edu/oauth/token")},
       some (.keyError "dataManagementApi"))
    ∧ ({stFresh with
          oauth_url := some (.str "https://api.example.edu/oauth/token")}).data_management_api_url = none := by
  exact C9_partial_mutation_on_missing_dm stFresh
    [("urls", .obj [("oauth", .str "https://api.example.edu/oauth/token")])]
    [("oauth", .str "https://api.example.edu/oauth/token")]
    (.str "https://api.example.edu/oauth/token") rfl rfl rfl rfl

/-- Counterexample to C8 as stated: a body-less request (`data = None`)
is still sent with the `Content-Type: application/json` header — the
`headers` dict of `make_request` (lines 119-122) is built
unconditionally, so the header is not restricted to requests carrying a
body. -/
theorem C8_counterexample :
    ((make_request envPlain stTok W0 "/ed-fi/students" "GET" none).w.calls.map
      (fun c => (c.contentTypeJson, c.body))) = [(true, none)] := rfl

/-- C8 amended: every request carries `Authorization: Bearer <token>`
for the active session's token, and the `Content-Type:
application/json` header is sent on every request — also when no body
is present.  (Stated for the non-401 first attempt; the 401 retry path
is covered by the C1 theorem, whose retry call also has
`contentTypeJson = true`.) -/
theorem C8_headers_always_sent (env : Env) (st : ClientState) (w : W)
    (ep meth : String) (data : Option Json) (tok : Json) (stat : Nat) (bod : Body)
    (htok : st.access_token = some tok) (htr : jsonTruthy tok = true)
    (hresp : env.http w.hCnt = .response stat bod) (hstat : stat ≠ 401) :
    (make_request env st w ep meth data).w.calls =
      w.calls ++ [⟨ep, meth, tok, true, pyBody data⟩]
    ∧ pyBody none = none := by
  constructor
  · simp [make_request, optTruthy, htok, htr, hresp, hstat]
  · rfl

/-- Witness for the amended C8: with an active token `tok` and no body,
the single request issued carries the bearer token and the JSON
content-type header. -/
theorem C8_headers_witness :
    (make_request envPlain stTok W0 "/ed-fi/students" "GET" none).w.calls =
      [⟨"/ed-fi/students", "GET", .str "tok", true, none⟩]
    ∧ pyBody none = (none : Option Json) := by
  have h := C8_headers_always_sent envPlain stTok W0 "/ed-fi/students" "GET" none
    (.str "tok") 200 .empty rfl rfl rfl (by decide)
  exact ⟨by simpa [pyBody] using h.1, h.2⟩

/-- C1: a `make_request` whose first response is 401 (with an active
session and cached endpoints, and a token endpoint that re-issues a
token `tok2`) performs exactly one `authenticate()` call and exactly
one retry of the same request with the refreshed token: the trace gains
exactly the original call and one retry carrying `tok2`, and exactly
two data-API requests are issued.  If the retry returns 200 with a JSON
body, that body is returned; if the retry is 401 again, the
`HTTPError` for status 401 propagates — the `hCnt` clause shows no
further request is made in either case. -/
theorem C1_401_single_reauth_single_retry (env : Env) (st : ClientState) (w : W)
    (ep meth : String) (data : Option Json) (tok tok2 : Json) (b1 : Body)
    (htok : st.access_token = some tok) (htr : jsonTruthy tok = true)
    (hoa : optTruthy st.oauth_url = true) (hdm : optTruthy st.data_management_api_url = true)
    (h401 : env.http w.hCnt = .response 401 b1)
    (hre : env.oauth w.oCnt = .response 200 (.json (.obj [("access_token", tok2)]))) :
    (make_request env st w ep meth data).w.aCnt = w.aCnt + 1
    ∧ (make_request env st w ep meth data).w.hCnt = w.hCnt + 2
    ∧ (make_request env st w ep meth data).w.calls =
        w.calls ++ [⟨ep, meth, tok, true, pyBody data⟩, ⟨ep, meth, tok2, true, pyBody data⟩]
    ∧ (make_request env st w ep meth data).state.access_token = some tok2
    ∧ (∀ j, env.http (w.hCnt + 1) = .response 200 (.json j) →
        (make_request env st w ep meth data).ret = .ok j)
    ∧ (∀ b2, env.http (w.hCnt + 1) = .response 401 b2 →
        (make_request env st w ep meth data).ret = .error (.httpError 401)) := by
  have hra : raiseForStatus 200 = false := by decide
  have hmr : make_request env st w ep meth data =
      ⟨{st with access_token := some tok2},
       {w with oCnt := w.oCnt + 1, hCnt := w.hCnt + 2, aCnt := w.aCnt + 1
               calls := w.calls ++
                 [⟨ep, meth, tok, true, pyBody data⟩,
                  ⟨ep, meth, tok2, true, pyBody data⟩]},
       finishResp (env.http (w.hCnt + 1))⟩ := by
    have hnd : discNeeded st = false := by
      simp [discNeeded, hoa, hdm]
    have ht : optTruthy st.access_token = true := by
      rw [htok]
      simpa [optTruthy] using htr
    simp [make_request, ht, htok, optTruthy, htr, h401, authenticate,
      discover_endpointsT, hnd, hre, hra, getKey, List.lookup]
  refine ⟨by rw [hmr], by rw [hmr], by rw [hmr], by rw [hmr], ?_, ?_⟩
  · intro j hj
    rw [hmr]
    show finishResp (env.http (w.hCnt + 1)) = .ok j
    rw [hj]
    simp [finishResp, hra]
  · intro b2 hb
    rw [hmr]
    show finishResp (env.http (w.hCnt + 1)) = .error (.httpError 401)
    rw [hb]
    simp [finishResp, raiseForStatus]

/-- Witness for C1 at a concrete network (`env401ok`): starting from an
authenticated client, the run re-authenticates exactly once, issues
exactly two requests, ends holding the refreshed token, and returns the
retry's 200 body. -/
theorem C1_401_retry_witness :
    (make_request env401ok stTok W0 "/ed-fi/students" "GET" none).w.aCnt = 1
    ∧ (make_request env401ok stTok W0 "/ed-fi/students" "GET" none).w.hCnt = 2
    ∧ (make_request env401ok stTok W0 "/ed-fi/students" "GET" none).w.calls =
        [⟨"/ed-fi/students", "GET", .str "tok", true, none⟩,
         ⟨"/ed-fi/students", "GET", .str "tok2", true, none⟩]
    ∧ (make_request env401ok stTok W0 "/ed-fi/students" "GET" none).ret =
        .ok (Json.str "body") := by
  have h := C1_401_single_reauth_single_retry env401ok stTok W0 "/ed-fi/students"
    "GET" none (.str "tok") (.str "tok2") .empty rfl (by decide) (by decide)
    (by decide) rfl rfl
  exact ⟨h.1, h.2.1, by simpa [pyBody] using h.2.2.1,
    h.2.2.2.2.1 (Json.str "body") rfl⟩

/-- The tally loop adds to its accumulators exactly the number of `ok`
and `error` outcomes of the threaded per-record results. -/
theorem load_all_loop_counts (env : Env) :
    ∀ (students : List StudentRecord) (st : ClientState) (w : W) (sc ec : Nat),
      (load_all_loop env st w sc ec students).2.2.1 =
        sc + (load_results env st w students).countP isOkB
      ∧ (load_all_loop env st w sc ec students).2.2.2 =
        ec + (load_results env st w students).countP (fun r => !(isOkB r)) := by
  intro students
  induction students with
  | nil => intro st w sc ec; simp [load_all_loop, load_results]
  | cons s rest ih =>
    intro st w sc ec
    simp only [load_all_loop, load_results]
    cases h : (load_student env st w s).ret with
    | ok u =>
      have hih := ih (load_student env st w s).state (load_student env st w s).w (sc + 1) ec
      constructor
      · rw [hih.1, List.countP_cons]
        simp [isOkB]
        try omega
      · rw [hih.2, List.countP_cons]
        simp [isOkB]
        try omega
    | error e =>
      have hih := ih (load_student env st w s).state (load_student env st w s).w sc (ec + 1)
      constructor
      · rw [hih.1, List.countP_cons]
        simp [isOkB]
        try omega
      · rw [hih.2, List.countP_cons]
        simp [isOkB]
        try omega

/-- There is one threaded outcome per input record. -/
theorem load_results_length (env : Env) :
    ∀ (students : List StudentRecord) (st : ClientState) (w : W),
      (load_results env st w students).length = students.length := by
  intro students
  induction students with
  | nil => intro st w; simp [load_results]
  | cons s rest ih => intro st w; simp [load_results, ih]

/-- Every outcome is counted once: successes plus failures equals the
number of outcomes. -/
theorem countP_ok_not_ok_sum (l : List (Except PyErr Unit)) :
    l.countP isOkB + l.countP (fun r => !(isOkB r)) = l.length := by
  induction l with
  | nil => simp
  | cons a t ih =>
    cases h : isOkB a <;> simp [List.countP_cons, h] <;> omega

/-- Counterexample to C2 as stated: on a one-record run whose submission
fails, the loop tallies `{successCount := 0, errorCount := 1}` — but
`load_all_students` is annotated `-> None` and has no `return`
statement, so the summary is only logged and the caller receives
`None`, not the `{successCount, errorCount}` summary the claim
promises. -/
theorem C2_counterexample :
    (load_all_students envDown stTok W0 [recPlain]).logged = ⟨0, 1⟩
    ∧ (load_all_students envDown stTok W0 [recPlain]).ret = none := by
  exact ⟨rfl, rfl⟩

/-- C2 amended: `load_all_students` catches each record's failure,
converts it into a tally increment, always continues to the next record
— the per-record outcomes line up one to one with the input records and
the logged tallies count exactly the successes and the failures, so
their sum is the number of records — and logs the final
`{successCount, errorCount}` summary; the function itself returns
`None` rather than the summary. -/
theorem C2_load_all_tallies_all_and_returns_none (env : Env) (st : ClientState)
    (w : W) (students : List StudentRecord) :
    (load_all_students env st w students).logged.success_count =
      (load_results env st w students).countP isOkB
    ∧ (load_all_students env st w students).logged.error_count =
      (load_results env st w students).countP (fun r => !(isOkB r))
    ∧ (load_all_students env st w students).logged.success_count +
        (load_all_students env st w students).logged.error_count = students.length
    ∧ (load_all_students env st w students).ret = none := by
  have h := load_all_loop_counts env students st w 0 0
  have hlen := load_results_length env students st w
  refine ⟨?_, ?_, ?_, rfl⟩
  · simpa [load_all_students] using h.1
  · simpa [load_all_students] using h.2
  · simp only [load_all_students]
    rw [h.1, h.2]
    simpa [countP_ok_not_ok_sum] using hlen

/-- With an active (truthy) token, a request answered by an empty 200
consumes exactly one network call, leaves the client state unchanged,
and returns the empty dict. -/
theorem make_request_200_empty (env : Env) (st : ClientState) (w : W)
    (ep meth : String) (data : Option Json) (tok : Json)
    (htok : st.access_token = some tok) (htr : jsonTruthy tok = true)
    (hresp : env.http w.hCnt = .response 200 .empty) :
    make_request env st w ep meth data =
      ⟨st, {w with hCnt := w.hCnt + 1
                   calls := w.calls ++ [⟨ep, meth, tok, true, pyBody data⟩]},
       .ok (Json.obj [])⟩ := by
  simp [make_request, optTruthy, htok, htr, hresp, finishResp, raiseForStatus]

/-- With an active (truthy) token, a request answered by a non-401
4xx/5xx status consumes exactly one network call, leaves the client
state unchanged, and raises `HTTPError` with that status. -/
theorem make_request_error_status (env : Env) (st : ClientState) (w : W)
    (ep meth : String) (data : Option Json) (tok : Json) (s1 : Nat) (b1 : Body)
    (htok : st.access_token = some tok) (htr : jsonTruthy tok = true)
    (hresp : env.http w.hCnt = .response s1 b1)
    (h4 : 400 ≤ s1) (h6 : s1 < 600) (hn : s1 ≠ 401) :
    make_request env st w ep meth data =
      ⟨st, {w with hCnt := w.hCnt + 1
                   calls := w.calls ++ [⟨ep, meth, tok, true, pyBody data⟩]},
       .error (.httpError s1)⟩ := by
  have hrs : raiseForStatus s1 = true := by
    simp [raiseForStatus, h4, h6]
  simp [make_request, optTruthy, htok, htr, hresp, hn, finishResp, hrs]

/-- A record whose primary POST and association POST are both answered
by empty 200s succeeds, consumes exactly two network calls in order
(primary then association), and leaves the client state unchanged. -/
theorem load_student_both_ok (env : Env) (st : ClientState) (w : W)
    (s : StudentRecord) (tok : Json) (q : ℚ) (n : Int)
    (htok : st.access_token = some tok) (htr : jsonTruthy tok = true)
    (hq : pyFloat? s.full_time = some q) (hn : pyInt? st.school_id = some n)
    (h1 : env.http w.hCnt = .response 200 .empty)
    (h2 : env.http (w.hCnt + 1) = .response 200 .empty) :
    load_student env st w s =
      ⟨st, {w with hCnt := w.hCnt + 2
                   calls := w.calls ++ [primaryCall tok s, assocCall tok s q n]},
       .ok ()⟩ := by
  have e1 := make_request_200_empty env st w "/ed-fi/students" "POST"
    (some (Json.obj (create_student_payload s))) tok htok htr h1
  have ea : create_student_school_association_payload st.school_id s =
      .ok (Json.obj (assocFields s q n)) := by
    simp [create_student_school_association_payload, hq, hn]
  have e2 := make_request_200_empty env st
    {w with hCnt := w.hCnt + 1
            calls := w.calls ++ [primaryCall tok s]}
    "/ed-fi/studentSchoolAssociations" "POST"
    (some (Json.obj (assocFields s q n))) tok htok htr h2
  simp only [load_student, e1, primaryCall, ea]
  simp only [primaryCall] at e2
  simp only [e2, assocCall]
  simp [List.append_assoc]

/-- A record whose primary POST is answered by a non-401 4xx/5xx status
fails, consumes exactly one network call — the primary one — and never
submits the association payload: the only call appended targets
`/ed-fi/students`. -/
theorem load_student_primary_fails (env : Env) (st : ClientState) (w : W)
    (s : StudentRecord) (tok : Json) (s1 : Nat) (b1 : Body)
    (htok : st.access_token = some tok) (htr : jsonTruthy tok = true)
    (hresp : env.http w.hCnt = .response s1 b1)
    (h4 : 400 ≤ s1) (h6 : s1 < 600) (hn : s1 ≠ 401) :
    load_student env st w s =
      ⟨st, {w with hCnt := w.hCnt + 1
                   calls := w.calls ++ [primaryCall tok s]},
       .error (.httpError s1)⟩ := by
  have e1 := make_request_error_status env st w "/ed-fi/students" "POST"
    (some (Json.obj (create_student_payload s))) tok s1 b1 htok htr hresp h4 h6 hn
  simp only [load_student, e1, primaryCall]

/-- `countAssoc` distributes over trace concatenation. -/
theorem countAssoc_append (a b : List HttpCall) :
    countAssoc (a ++ b) = countAssoc a + countAssoc b := by
  simp [countAssoc, List.countP_append]

/-- A primary call does not target the association endpoint. -/
theorem countAssoc_primary (tok : Json) (s : StudentRecord) :
    countAssoc [primaryCall tok s] = 0 := by
  simp [countAssoc, primaryCall, List.countP_cons]

/-- An association call counts as exactly one association submission. -/
theorem countAssoc_assoc (tok : Json) (s : StudentRecord) (q : ℚ) (n : Int) :
    countAssoc [assocCall tok s q n] = 1 := by
  simp [countAssoc, assocCall, List.countP_cons]

/-- When the token is active, every record's full-time flag parses, the
school id parses, and every response from the current position on is an
empty 200, the loop succeeds on every record: the client state is
unchanged, each record consumes two calls, each record submits exactly
one association payload, and the tallies gain `(length, 0)`. -/
theorem load_all_loop_all_ok (env : Env) (tok : Json) (n : Int) :
    ∀ (students : List StudentRecord) (st : ClientState) (w : W) (sc ec : Nat),
      st.access_token = some tok → jsonTruthy tok = true →
      pyInt? st.school_id = some n →
      (∀ s ∈ students, pyFloat? s.full_time ≠ none) →
      (∀ m, w.hCnt ≤ m → env.http m = .response 200 .empty) →
      (load_all_loop env st w sc ec students).1 = st
      ∧ (load_all_loop env st w sc ec students).2.1.hCnt =
          w.hCnt + 2 * students.length
      ∧ countAssoc (load_all_loop env st w sc ec students).2.1.calls =
          countAssoc w.calls + students.length
      ∧ (load_all_loop env st w sc ec students).2.2.1 = sc + students.length
      ∧ (load_all_loop env st w sc ec students).2.2.2 = ec := by
  intro students
  induction students with
  | nil =>
    intro st w sc ec _ _ _ _ _
    simp [load_all_loop]
  | cons s rest ih =>
    intro st w sc ec htok htr hsid hflags hresp
    obtain ⟨q, hq⟩ := Option.ne_none_iff_exists'.mp
      (hflags s (List.mem_cons_self s rest))
    have hs := load_student_both_ok env st w s tok q n htok htr hq hsid
      (hresp w.hCnt (Nat.le_refl _)) (hresp (w.hCnt + 1) (Nat.le_succ _))
    have hw' : ({w with hCnt := w.hCnt + 2
                        calls := w.calls ++ [primaryCall tok s, assocCall tok s q n]} : W).hCnt =
        w.hCnt + 2 := rfl
    have hih := ih st
      {w with hCnt := w.hCnt + 2
              calls := w.calls ++ [primaryCall tok s, assocCall tok s q n]}
      (sc + 1) ec htok htr hsid
      (fun r hr => hflags r (List.mem_cons_of_mem s hr))
      (fun m hm => hresp m (by omega))
    simp only [load_all_loop, hs]
    refine ⟨hih.1, ?_, ?_, ?_, hih.2.2.2.2⟩
    · rw [hih.2.1]
      simp only [hw', List.length_cons]
      omega
    · rw [hih.2.2.1]
      have : countAssoc (w.calls ++ [primaryCall tok s, assocCall tok s q n]) =
          countAssoc w.calls + 1 := by
        have h1 : ([primaryCall tok s, assocCall tok s q n] : List HttpCall) =
            [primaryCall tok s] ++ [assocCall tok s q n] := rfl
        rw [h1, ← List.append_assoc, countAssoc_append, countAssoc_append,
          countAssoc_primary, countAssoc_assoc]
      simp only [this, List.length_cons]
      omega
    · rw [hih.2.2.2.1, List.length_cons]
      omega

/-- When exactly the response at offset `2 * k` from the current
position is a 500 and every other response is an empty 200, record `k`
fails at its primary POST and every other record succeeds: the tallies
gain `(length - 1, 1)` and exactly `length - 1` association payloads
are submitted. -/
theorem load_all_loop_fail_at (env : Env) (tok : Json) (n : Int) :
    ∀ (k : Nat) (students : List StudentRecord) (st : ClientState) (w : W)
      (sc ec : Nat),
      st.access_token = some tok → jsonTruthy tok = true →
      pyInt? st.school_id = some n →
      (∀ s ∈ students, pyFloat? s.full_time ≠ none) →
      k < students.length →
      (∀ m, w.hCnt ≤ m → m ≠ w.hCnt + 2 * k → env.http m = .response 200 .empty) →
      env.http (w.hCnt + 2 * k) = .response 500 .empty →
      (load_all_loop env st w sc ec students).2.2.1 = sc + (students.length - 1)
      ∧ (load_all_loop env st w sc ec students).2.2.2 = ec + 1
      ∧ countAssoc (load_all_loop env st w sc ec students).2.1.calls =
          countAssoc w.calls + (students.length - 1) := by
  intro k
  induction k with
  | zero =>
    intro students st w sc ec htok htr hsid hflags hk hgood hbad
    cases students with
    | nil => simp at hk
    | cons s rest =>
      have hb : env.http w.hCnt = .response 500 .empty := by
        have he : w.hCnt + 2 * 0 = w.hCnt := by omega
        rwa [he] at hbad
      have hs := load_student_primary_fails env st w s tok 500 .empty htok htr hb
        (by omega) (by omega) (by omega)
      have hok := load_all_loop_all_ok env tok n rest st
        {w with hCnt := w.hCnt + 1
                calls := w.calls ++ [primaryCall tok s]}
        sc (ec + 1) htok htr hsid
        (fun r hr => hflags r (List.mem_cons_of_mem s hr))
        (fun m hm =>
          have hm' : w.hCnt + 1 ≤ m := hm
          hgood m (by omega) (by omega))
      simp only [load_all_loop, hs]
      refine ⟨?_, ?_, ?_⟩
      · rw [hok.2.2.2.1]
        simp only [List.length_cons]
        omega
      · rw [hok.2.2.2.2]
      · rw [hok.2.2.1]
        rw [countAssoc_append, countAssoc_primary]
        simp only [List.length_cons]
        omega
  | succ k ihk =>
    intro students st w sc ec htok htr hsid hflags hk hgood hbad
    cases students with
    | nil => simp at hk
    | cons s rest =>
      obtain ⟨q, hq⟩ := Option.ne_none_iff_exists'.mp
        (hflags s (List.mem_cons_self s rest))
      have h1 : env.http w.hCnt = .response 200 .empty :=
        hgood w.hCnt (Nat.le_refl _) (by omega)
      have h2 : env.http (w.hCnt + 1) = .response 200 .empty :=
        hgood (w.hCnt + 1) (by omega) (by omega)
      have hs := load_student_both_ok env st w s tok q n htok htr hq hsid h1 h2
      have hrest : k < rest.length := by
        simp only [List.length_cons] at hk
        omega
      have hbad' : env.http (w.hCnt + 2 + 2 * k) = .response 500 .empty := by
        have he : w.hCnt + 2 + 2 * k = w.hCnt + 2 * (k + 1) := by omega
        rw [he]
        exact hbad
      have hih := ihk rest st
        {w with hCnt := w.hCnt + 2
                calls := w.calls ++ [primaryCall tok s, assocCall tok s q n]}
        (sc + 1) ec htok htr hsid
        (fun r hr => hflags r (List.mem_cons_of_mem s hr))
        hrest
        (fun m hm hne =>
          have hm' : w.hCnt + 2 ≤ m := hm
          have hne' : m ≠ w.hCnt + 2 + 2 * k := hne
          hgood m (by omega) (by omega))
        hbad'
      simp only [load_all_loop, hs]
      refine ⟨?_, hih.2.1, ?_⟩
      · rw [hih.1]
        simp only [List.length_cons]
        omega
      · rw [hih.2.2]
        have hcnt : countAssoc (w.calls ++ [primaryCall tok s, assocCall tok s q n]) =
            countAssoc w.calls + 1 := by
          have hsplit : ([primaryCall tok s, assocCall tok s q n] : List HttpCall) =
              [primaryCall tok s] ++ [assocCall tok s q n] := rfl
          rw [hsplit, ← List.append_assoc, countAssoc_append, countAssoc_append,
            countAssoc_primary, countAssoc_assoc]
        rw [hcnt]
        simp only [List.length_cons]
        omega

/-- C3: (first conjunct) `load_student` POSTs the primary payload
first; if that POST fails, the record errors and the only request
appended is the primary one — the association payload is never
submitted, so the record's association-submission count is unchanged.
(Second conjunct) over `N` records where the network fails exactly the
primary POST of record `k` (response `500` at offset `2k`) and every
other response succeeds, the run tallies `successCount = N - 1` and
`errorCount = 1`, and exactly `N - 1` association payloads are
submitted. -/
theorem C3_primary_first_association_skipped :
    (∀ (env : Env) (st : ClientState) (w : W) (s : StudentRecord) (tok : Json)
       (s1 : Nat) (b1 : Body),
      st.access_token = some tok → jsonTruthy tok = true →
      env.http w.hCnt = .response s1 b1 → 400 ≤ s1 → s1 < 600 → s1 ≠ 401 →
      (load_student env st w s).ret = .error (.httpError s1)
      ∧ (load_student env st w s).w.calls = w.calls ++ [primaryCall tok s]
      ∧ countAssoc (load_student env st w s).w.calls = countAssoc w.calls)
    ∧ (∀ (env : Env) (st : ClientState) (w : W) (students : List StudentRecord)
         (k : Nat) (tok : Json) (n : Int),
      st.access_token = some tok → jsonTruthy tok = true →
      pyInt? st.school_id = some n →
      (∀ s ∈ students, pyFloat? s.full_time ≠ none) →
      k < students.length →
      (∀ m, w.hCnt ≤ m → m ≠ w.hCnt + 2 * k → env.http m = .response 200 .empty) →
      env.http (w.hCnt + 2 * k) = .response 500 .empty →
      (load_all_students env st w students).logged =
        ⟨students.length - 1, 1⟩
      ∧ countAssoc (load_all_students env st w students).w.calls =
          countAssoc w.calls + (students.length - 1)) := by
  constructor
  · intro env st w s tok s1 b1 htok htr hresp h4 h6 hn
    have hs := load_student_primary_fails env st w s tok s1 b1 htok htr hresp h4 h6 hn
    refine ⟨by rw [hs], by rw [hs], ?_⟩
    rw [hs]
    show countAssoc (w.calls ++ [primaryCall tok s]) = countAssoc w.calls
    rw [countAssoc_append, countAssoc_primary]
    omega

  · intro env st w students k tok n htok htr hsid hflags hk hgood hbad
    have h := load_all_loop_fail_at env tok n k students st w 0 0
      htok htr hsid hflags hk hgood hbad
    constructor
    · show (⟨(load_all_loop env st w 0 0 students).2.2.1,
            (load_all_loop env st w 0 0 students).2.2.2⟩ : LoadSummary) = _
      rw [h.1, h.2.1]
      simp
    · show countAssoc (load_all_loop env st w 0 0 students).2.1.calls = _
      rw [h.2.2]

/-- Witness for C3 on the concrete network `envFail0` (first request
500, all later ones 200): a single record fails at the primary POST
with no association call, and a two-record batch where record 0 fails
yields tallies `(1, 1)` with exactly one association submission. -/
theorem C3_primary_first_witness :
    (load_student envFail0 stTok W0 recPlain).ret = .error (.httpError 500)
    ∧ (load_student envFail0 stTok W0 recPlain).w.calls =
        [primaryCall (.str "tok") recPlain]
    ∧ countAssoc (load_student envFail0 stTok W0 recPlain).w.calls = 0
    ∧ (load_all_students envFail0 stTok W0 [recPlain, recFull]).logged = ⟨1, 1⟩
    ∧ countAssoc (load_all_students envFail0 stTok W0 [recPlain, recFull]).w.calls = 1 := by
  have h1 := C3_primary_first_association_skipped.1 envFail0 stTok W0 recPlain
    (.str "tok") 500 .empty rfl (by decide) rfl (by decide) (by decide) (by decide)
  have h2 := C3_primary_first_association_skipped.2 envFail0 stTok W0
    [recPlain, recFull] 0 (.str "tok") 255901 rfl (by decide) rfl
    (by
      intro s hs
      simp only [List.mem_cons, List.not_mem_nil, or_false] at hs
      rcases hs with rfl | rfl
      · exact fun hc => by
          rw [show pyFloat? recPlain.full_time = some (1 / 2) from pyFloat_half] at hc
          cases hc
      · exact fun hc => by rw [show pyFloat? recFull.full_time = some 1 from rfl] at hc; cases hc)
    (by decide)
    (by
      intro m hm hne
      have hm0 : m ≠ 0 := by
        simpa using hne
      simp [envFail0, hm0])
    rfl
  refine ⟨h1.1, ?_, ?_, h2.1, ?_⟩
  · have := h1.2.1
    simpa using this
  · have := h1.2.2
    simpa [W0, countAssoc] using this
  · have := h2.2
    simpa [W0, countAssoc] using this

end EdFi
